import Mathlib

/-!
Shallow embedding of the gojina client library (Go package jina).

Pure data and control flow of the source are translated directly:
  - JSON values produced by the Go encoding/json layer are modelled by the
    inductive type Json (numbers as integers, which covers every numeric
    payload this library produces);
  - custom MarshalJSON / UnmarshalJSON methods become Lean functions on Json;
  - the SSE streaming loop of Client.doStream becomes a recursive function
    over the list of scanned lines, returning the exact ordered trace of
    payloads handed to the callback together with the terminal outcome;
  - the HTTP transport is an oracle parameter: callers of the call-level
    functions supply the status code, raw body and the results of the
    external encoding/json decoder.
-/

/-- JSON values as produced by the Go encoding/json layer. -/
inductive Json where
  | str (s : String)
  | num (n : Int)
  | bool (b : Bool)
  | null
  | arr (elems : List Json)
  | obj (fields : List (String × Json))

/-- Field lookup on a JSON object (none on non-objects). -/
def Json.lookupKey (j : Json) (k : String) : Option Json :=
  match j with
  | .obj fields => fields.lookup k
  | _ => none

/-- The config struct of client.go (APIKey, EUCompliance). -/
structure Config where
  apiKey : String := ""
  euCompliance : Bool := false

/-- defaultConfig of client.go: empty key, EU compliance off. -/
def defaultConfig : Config := {}

/-- WithAPIKey option of client.go. -/
def withAPIKey (k : String) : Config → Config :=
  fun cfg => { cfg with apiKey := k }

/-- WithEUCompliance option of client.go. -/
def withEUCompliance : Config → Config :=
  fun cfg => { cfg with euCompliance := true }

/-- NewClient of client.go: fold the option functions over the defaults. -/
def newClientConfig (options : List (Config → Config)) : Config :=
  options.foldl (fun cfg o => o cfg) defaultConfig

/-! ## Streaming reassembler (Client.doStream, client.go lines 54-87) -/

/-- The Go literal "data: " tested by strings.HasPrefix in doStream. -/
def dataMarker : List Char := "data: ".toList

/-- The Go literal "[DONE]" sentinel compared against in doStream. -/
def doneMark : List Char := "[DONE]".toList

/-- strings.TrimPrefix(line, "data: "): drop the marker when present. -/
def trimDataMarker (line : List Char) : List Char :=
  if dataMarker.isPrefixOf line then line.drop dataMarker.length else line

/-- An SSE line carrying the given payload. -/
def dataLine (payload : List Char) : List Char := dataMarker ++ payload

/-- How the scan loop of doStream terminated. -/
inductive LoopExit (E : Type) where
  | ranOff
  | sawDone
  | cbError (e : E)

/-- The scanner loop of doStream (client.go lines 67-78): for each scanned
line, lines without the "data: " marker are skipped; a "[DONE]" payload
returns immediately; otherwise the callback runs on the payload and a
callback error returns immediately.  The first component is the exact
ordered list of payloads the callback was invoked with. -/
def scanLoop {E : Type} (cb : List Char → Except E Unit) :
    List (List Char) → List (List Char) × LoopExit E
  | [] => ([], .ranOff)
  | line :: rest =>
    if dataMarker.isPrefixOf line then
      let data := trimDataMarker line
      if data = doneMark then ([], .sawDone)
      else
        match cb data with
        | .ok _ =>
          let r := scanLoop cb rest
          (data :: r.1, r.2)
        | .error e => ([data], .cbError e)
    else scanLoop cb rest

/-- What bufio.Scanner.Err() reports once the loop runs off the scanned
lines: nil (modelled by the surrounding Option.none), io.EOF, or another
read error. -/
inductive ScanTermination (R : Type) where
  | eofErr
  | readErr (e : R)

/-- Result of doStream, paired below with the callback trace. -/
inductive StreamOutcome (E R : Type) where
  | ok
  | apiStatus (code : Nat)
  | cbFail (e : E)
  | readFail (e : R)

/-- Client.doStream (client.go lines 54-87).  A non-200 status returns the
status-code error before any line is read; otherwise the scan loop runs;
if the loop ran off the end of the scanned lines, scanner.Err() is
consulted: nil and io.EOF are success, any other error is returned. -/
def doStream {E R : Type} (status : Nat) (body : List (List Char))
    (scanErr : Option (ScanTermination R)) (cb : List Char → Except E Unit) :
    List (List Char) × StreamOutcome E R :=
  if status ≠ 200 then ([], .apiStatus status)
  else
    let r := scanLoop cb body
    match r.2 with
    | .sawDone => (r.1, .ok)
    | .cbError e => (r.1, .cbFail e)
    | .ranOff =>
      match scanErr with
      | some .eofErr => (r.1, .ok)
      | some (.readErr e) => (r.1, .readFail e)
      | none => (r.1, .ok)

/-- Failure of the per-data-line closure passed to doStream by VLMStream
(part_004 lines 180-186) and DeepSearchStream (deepsearch.go lines
145-152): either the chunk fails to unmarshal, or the user callback
itself fails. -/
inductive ChunkCbError (E : Type) where
  | unmarshalChunk (data : List Char)
  | user (e : E)

/-- The closure VLMStream/DeepSearchStream pass to doStream: unmarshal the
payload as a chunk (the external json.Unmarshal is the decode oracle);
on failure return the unmarshal error, otherwise invoke the caller's
callback and propagate its error. -/
def chunkCallback {C E : Type} (decode : List Char → Option C)
    (ucb : C → Except E Unit) (data : List Char) : Except (ChunkCbError E) Unit :=
  match decode data with
  | none => .error (.unmarshalChunk data)
  | some c =>
    match ucb c with
    | .ok _ => .ok ()
    | .error e => .error (.user e)

/-! ## Rerank (part_003) -/

/-- RerankInput of part_003: text and/or image, both omitempty. -/
structure RerankInput where
  text : String := ""
  image : String := ""

/-- Go default struct marshaling of RerankInput: both fields omitempty,
declaration order text then image. -/
def RerankInput.marshalJSON (i : RerankInput) : Json :=
  .obj ((if i.text ≠ "" then [("text", Json.str i.text)] else [])
    ++ (if i.image ≠ "" then [("image", Json.str i.image)] else []))

/-- RerankRequest of part_003.  QueryInput is a pointer in the source,
modelled as an Option. -/
structure RerankRequest where
  model : String := ""
  query : String := ""
  documents : List String := []
  queryInput : Option RerankInput := none
  documentsInput : List RerankInput := []
  topN : Int := 0
  returnDocuments : Option Bool := none

/-- RerankRequest.MarshalJSON (part_003 lines 71-98): build the map with
model, conditional top_n and return_documents, then the query slot
(QueryInput if non-nil, else the Query string) and the documents slot
(DocumentsInput if len > 0, else the flat Documents list).  The object
fields are listed in the source's insertion order; the Go map itself is
unordered and the claims only inspect fields by key. -/
def RerankRequest.marshalJSON (r : RerankRequest) : Json :=
  .obj ([("model", Json.str r.model)]
    ++ (if r.topN > 0 then [("top_n", Json.num r.topN)] else [])
    ++ (match r.returnDocuments with
        | some b => [("return_documents", Json.bool b)]
        | none => [])
    ++ [("query", match r.queryInput with
        | some qi => qi.marshalJSON
        | none => Json.str r.query)]
    ++ [("documents", if r.documentsInput.length > 0
        then Json.arr (r.documentsInput.map RerankInput.marshalJSON)
        else Json.arr (r.documents.map Json.str))])

/-! ## Classification (classification.go) -/

/-- ClassificationInput of classification.go: text and image, both omitempty. -/
structure ClassificationInput where
  text : String := ""
  image : String := ""

/-- ClassificationInput.MarshalJSON (classification.go lines 49-55): a
non-empty image encodes as the single-key object, otherwise the text is
encoded as a bare JSON string. -/
def ClassificationInput.marshalJSON (c : ClassificationInput) : Json :=
  if c.image ≠ "" then Json.obj [("image", Json.str c.image)]
  else Json.str c.text

/-- NewClassificationInputText of classification.go. -/
def newClassificationInputText (text : String) : ClassificationInput :=
  { text := text }

/-- NewClassificationInputImage of classification.go. -/
def newClassificationInputImage (imageURLOrBase64 : String) : ClassificationInput :=
  { image := imageURLOrBase64 }

/-! ## Shared header construction and response handling -/

/-- The conditional Authorization attachment shared verbatim by Classify
(classification.go 101-103), Segment (segmenter.go 103-105), Rerank
(part_003 128-130), VLM and VLMStream (part_004 127-129 and 176-178),
DeepSearch and DeepSearchStream (deepsearch.go 92-94 and 141-143):
the header is set only when the configured key is non-empty. -/
def bearerAuth (apiKey : String) : List (String × String) :=
  if apiKey ≠ "" then [("Authorization", "Bearer " ++ apiKey)] else []

/-- Headers of the synchronous JSON endpoints (Classify, Segment, Rerank,
VLM, DeepSearch): Content-Type, Accept application/json, then the
conditional Authorization. -/
def jsonApiHeaders (cfg : Config) : List (String × String) :=
  [("Content-Type", "application/json"), ("Accept", "application/json")]
    ++ bearerAuth cfg.apiKey

/-- Headers of the streaming endpoints (VLMStream, DeepSearchStream):
Content-Type, Accept text/event-stream, then the conditional
Authorization. -/
def streamApiHeaders (cfg : Config) : List (String × String) :=
  [("Content-Type", "application/json"), ("Accept", "text/event-stream")]
    ++ bearerAuth cfg.apiKey

/-- Errors a call-level function can report.  Each constructor carries
exactly what the corresponding fmt.Errorf message embeds. -/
inductive ApiCallError where
  | validation (msg : String)
  | detail (m : List (String × Json))
  | statusCode (code : Nat)
  | statusBody (code : Nat) (body : List Char)
  | decodeFail (msg : String)

/-- Non-200 and success handling shared verbatim by Classify
(classification.go 112-125), Segment, Rerank, VLM and DeepSearch: on a
non-200 status, if the external decoder produced a generic error-detail
map the error embeds that map, otherwise the error embeds only the
status code; on 200 the decoded response is returned, or a decode
failure if the body did not decode. -/
def apiHandleResp {P : Type} (status : Nat)
    (errDecoded : Option (List (String × Json))) (okDecoded : Option P) :
    Except ApiCallError P :=
  if status ≠ 200 then
    match errDecoded with
    | some m => .error (.detail m)
    | none => .error (.statusCode status)
  else
    match okDecoded with
    | some r => .ok r
    | none => .error (.decodeFail "failed to decode response")

/-! ## Segmenter (segmenter.go) -/

/-- Token of segmenter.go: a text fragment with its integer ids. -/
structure Token where
  text : String
  ids : List Int

/-- The errors Token.UnmarshalJSON reports. -/
inductive TokenDecodeError where
  | notArray
  | badArity (n : Nat)
  | firstNotString
  | secondNotArray
  | idNotNumber

/-- The loop of Token.UnmarshalJSON over the second element: every entry
must be a number (the first non-number aborts with an error). -/
def decodeIds : List Json → Except TokenDecodeError (List Int)
  | [] => .ok []
  | .num n :: rest => (decodeIds rest).map (fun l => n :: l)
  | _ :: _ => .error .idNotNumber

/-- Token.UnmarshalJSON (segmenter.go lines 55-85): the value must be a
two-element array whose first element is a string and whose second
element is an array of numbers. -/
def Token.unmarshalJSON : Json → Except TokenDecodeError Token
  | .arr [a, b] =>
    match a with
    | .str text =>
      match b with
      | .arr idsRaw => (decodeIds idsRaw).map (fun ids => ⟨text, ids⟩)
      | _ => .error .secondNotArray
    | _ => .error .firstNotString
  | .arr raw => .error (.badArity raw.length)
  | _ => .error .notArray

/-! ## Reader (client.go lines 100-466) -/

/-- Viewport of client.go. -/
structure Viewport where
  width : Int := 0
  height : Int := 0

/-- ReaderRequest of client.go.  BrowserEngine and ContentFormat are string
types in the source whose default constants are the empty string. -/
structure ReaderRequest where
  url : String := ""
  viewport : Option Viewport := none
  injectPageScript : String := ""
  jsonResponse : Bool := false
  browserEngine : String := ""
  contentFormat : String := ""
  timeout : Int := 0
  targetSelector : String := ""
  waitForSelector : String := ""
  removeSelector : String := ""
  gatherLinks : String := ""
  gatherImages : String := ""
  imageCaption : Bool := false
  bypassCachedContent : Bool := false
  withIframe : Bool := false
  tokenBudget : Int := 0
  removeAllImages : Bool := false
  respondWith : String := ""
  setCookie : String := ""
  proxyURL : String := ""
  proxyCountry : String := ""
  dnt : Int := 0
  noGfm : String := ""
  browserLocale : String := ""
  robotsTxt : String := ""
  withShadowDom : Bool := false
  base : String := ""
  mdHeadingStyle : String := ""
  mdHr : String := ""
  mdBulletListMarker : String := ""
  mdEmDelimiter : String := ""
  mdStrongDelimiter : String := ""
  mdLinkStyle : String := ""
  mdLinkReferenceStyle : String := ""
  euCompliance : Bool := false

/-- buildReaderURL of client.go. -/
def buildReaderURL (args : ReaderRequest) : String :=
  if args.euCompliance then "https://eu.r.jina.ai/" else "https://r.jina.ai/"

/-- The JSON body Reader marshals: only url, viewport and injectPageScript
carry json tags (the rest are header-bound, tagged "-"). -/
def readerMarshalBody (req : ReaderRequest) : Json :=
  .obj ([("url", Json.str req.url)]
    ++ (match req.viewport with
        | some v => [("viewport", Json.obj
            [("width", Json.num v.width), ("height", Json.num v.height)])]
        | none => [])
    ++ (if req.injectPageScript ≠ ""
        then [("injectPageScript", Json.str req.injectPageScript)] else []))

/-- A single conditional Header.Add: when the condition holds the header is
added, otherwise nothing (how every optional header of the reader and
search endpoints is expressed). -/
def optHeader (cond : Bool) (k v : String) : List (String × String) :=
  if cond then [(k, v)] else []

/-- setReaderHeaders (client.go lines 321-446), in source order.  The
Authorization header is added unconditionally, before any of the
conditional option headers. -/
def setReaderHeaders (cfg : Config) (req : ReaderRequest) : List (String × String) :=
  List.flatten
    [[("Authorization", "Bearer " ++ cfg.apiKey)],
     optHeader (req.tokenBudget > 0) "X-Token-Budget" (toString req.tokenBudget),
     optHeader (req.contentFormat ≠ "") "X-Return-Format" req.contentFormat,
     optHeader (req.browserEngine ≠ "") "X-Engine" req.browserEngine,
     optHeader (req.timeout > 0) "X-Timeout" (toString req.timeout),
     optHeader (req.gatherLinks ≠ "") "X-With-Links-Summary" req.gatherLinks,
     optHeader req.removeAllImages "X-Retain-Images" "none",
     optHeader (req.gatherImages ≠ "") "X-With-Images-Summary" req.gatherImages,
     optHeader req.imageCaption "X-With-Generated-Alt" "true",
     optHeader (req.proxyCountry ≠ "") "X-Proxy" req.proxyCountry,
     optHeader (req.proxyURL ≠ "") "X-Proxy-Url" req.proxyURL,
     optHeader (req.browserLocale ≠ "") "X-Locale" req.browserLocale,
     optHeader req.bypassCachedContent "X-No-Cache" "true",
     optHeader (req.targetSelector ≠ "") "X-Target-Selector" req.targetSelector,
     optHeader (req.waitForSelector ≠ "") "X-Wait-For-Selector" req.waitForSelector,
     optHeader (req.removeSelector ≠ "") "X-Remove-Selector" req.removeSelector,
     optHeader req.withIframe "X-With-Iframe" "true",
     optHeader req.withShadowDom "X-With-Shadow-Dom" "true",
     optHeader (req.respondWith ≠ "") "X-Respond-With" req.respondWith,
     optHeader (req.setCookie ≠ "") "X-Set-Cookie" req.setCookie,
     optHeader (req.dnt > 0) "DNT" (toString req.dnt),
     optHeader (req.noGfm ≠ "") "X-No-Gfm" req.noGfm,
     optHeader (req.robotsTxt ≠ "") "X-Robots-Txt" req.robotsTxt,
     optHeader (req.base ≠ "") "X-Base" req.base,
     optHeader (req.mdHeadingStyle ≠ "") "X-Md-Heading-Style" req.mdHeadingStyle,
     optHeader (req.mdHr ≠ "") "X-Md-Hr" req.mdHr,
     optHeader (req.mdBulletListMarker ≠ "") "X-Md-Bullet-List-Marker" req.mdBulletListMarker,
     optHeader (req.mdEmDelimiter ≠ "") "X-Md-Em-Delimiter" req.mdEmDelimiter,
     optHeader (req.mdStrongDelimiter ≠ "") "X-Md-Strong-Delimiter" req.mdStrongDelimiter,
     optHeader (req.mdLinkStyle ≠ "") "X-Md-Link-Style" req.mdLinkStyle,
     optHeader (req.mdLinkReferenceStyle ≠ "") "X-Md-Link-Reference-Style" req.mdLinkReferenceStyle,
     optHeader req.jsonResponse "Accept" "application/json"]

/-- A response whose Text or Structured side is populated, mirroring
ReaderResponse / SearchResponse.  The structured decode result is kept
abstract in the type parameter. -/
structure RawOrStructured (S : Type) where
  text : List Char := []
  structured : Option S := none

/-- parseReaderResponse (client.go lines 448-466): branch strictly on the
caller's JSONResponse flag; the external json.Unmarshal of the
structured body is the oracle argument. -/
def parseReaderResponse {S : Type} (body : List Char) (structuredDecoded : Option S)
    (jsonResponse : Bool) : Except ApiCallError (RawOrStructured S) :=
  if jsonResponse then
    match structuredDecoded with
    | some s => .ok { structured := some s }
    | none => .error (.decodeFail "unmarshal response body")
  else
    .ok { text := body }

/-- The status check and body handling of Reader (client.go lines 299-309):
any non-200 status yields an error embedding the status code and the raw
body; on 200 the body is parsed according to the JSONResponse flag. -/
def readerHandleResp {S : Type} (status : Nat) (body : List Char)
    (structuredDecoded : Option S) (jsonResponse : Bool) :
    Except ApiCallError (RawOrStructured S) :=
  if status ≠ 200 then .error (.statusBody status body)
  else parseReaderResponse body structuredDecoded jsonResponse

/-- An HTTP request as assembled by a call before it is executed. -/
structure SentRequest where
  url : String
  headers : List (String × String)
  body : Json

/-- Client.Reader (client.go lines 266-310).  The network is the oracle
argument mapping the sent request to status, raw body, and the external
decode of the structured body.  The first component of the result is
the list of requests actually sent: the validation error path sends
none. -/
def readerCall {S : Type} (cfg : Config) (req : ReaderRequest)
    (net : SentRequest → Nat × List Char × Option S) :
    List SentRequest × Except ApiCallError (RawOrStructured S) :=
  if req.url = "" then ([], .error (.validation "URL is required"))
  else
    let req := if cfg.euCompliance then { req with euCompliance := true } else req
    let sent : SentRequest :=
      { url := buildReaderURL req
        headers := ("Content-Type", "application/json") :: setReaderHeaders cfg req
        body := readerMarshalBody req }
    let r := net sent
    ([sent], readerHandleResp r.1 r.2.1 r.2.2 req.jsonResponse)

/-! ## Search (part_002) -/

/-- SearchRequest of part_002. -/
structure SearchRequest where
  query : String := ""
  countryCode : String := ""
  location : String := ""
  languageCode : String := ""
  maxResults : Int := 0
  pageOffset : Int := 0
  jsonResponse : Bool := false
  site : String := ""
  withLinksSummary : Bool := false
  withImagesSummary : Bool := false
  retainImages : String := ""
  noCache : Bool := false
  withGeneratedAlt : Bool := false
  respondWith : String := ""
  withFavicon : Bool := false
  returnFormat : String := ""
  engine : String := ""
  withFavicons : Bool := false
  timeout : Int := 0
  setCookie : String := ""
  proxyURL : String := ""
  locale : String := ""
  euCompliance : Bool := false

/-- buildSearchURL of part_002. -/
def buildSearchURL (args : SearchRequest) : String :=
  if args.euCompliance then "https://eu.s.jina.ai/" else "https://s.jina.ai/"

/-- The JSON body Search marshals: q always, the rest omitempty. -/
def searchMarshalBody (req : SearchRequest) : Json :=
  .obj ([("q", Json.str req.query)]
    ++ (if req.countryCode ≠ "" then [("gl", Json.str req.countryCode)] else [])
    ++ (if req.location ≠ "" then [("location", Json.str req.location)] else [])
    ++ (if req.languageCode ≠ "" then [("hl", Json.str req.languageCode)] else [])
    ++ (if req.maxResults ≠ 0 then [("num", Json.num req.maxResults)] else [])
    ++ (if req.pageOffset ≠ 0 then [("page", Json.num req.pageOffset)] else []))

/-- setSearchHeaders (part_002 lines 165-217), in source order.  The
Authorization header is added unconditionally. -/
def setSearchHeaders (cfg : Config) (args : SearchRequest) : List (String × String) :=
  List.flatten
    [[("Authorization", "Bearer " ++ cfg.apiKey)],
     optHeader args.jsonResponse "Accept" "application/json",
     optHeader (args.site ≠ "") "X-Site" args.site,
     optHeader args.withLinksSummary "X-With-Links-Summary" "true",
     optHeader args.withImagesSummary "X-With-Images-Summary" "true",
     optHeader (args.retainImages ≠ "") "X-Retain-Images" args.retainImages,
     optHeader args.noCache "X-No-Cache" "true",
     optHeader args.withGeneratedAlt "X-With-Generated-Alt" "true",
     optHeader (args.respondWith ≠ "") "X-Respond-With" args.respondWith,
     optHeader args.withFavicon "X-With-Favicon" "true",
     optHeader (args.returnFormat ≠ "") "X-Return-Format" args.returnFormat,
     optHeader (args.engine ≠ "") "X-Engine" args.engine,
     optHeader args.withFavicons "X-With-Favicons" "true",
     optHeader (args.timeout > 0) "X-Timeout" (toString args.timeout),
     optHeader (args.setCookie ≠ "") "X-Set-Cookie" args.setCookie,
     optHeader (args.proxyURL ≠ "") "X-Proxy-Url" args.proxyURL,
     optHeader (args.locale ≠ "") "X-Locale" args.locale]

/-- parseSearchResponse (part_002 lines 219-229): same duality as the
reader. -/
def parseSearchResponse {S : Type} (body : List Char) (structuredDecoded : Option S)
    (jsonResponse : Bool) : Except ApiCallError (RawOrStructured S) :=
  if jsonResponse then
    match structuredDecoded with
    | some s => .ok { structured := some s }
    | none => .error (.decodeFail "unmarshal response body")
  else
    .ok { text := body }

/-- The status check and body handling of Search (part_002 lines 144-155):
any non-200 status yields an error embedding the status code and the
raw body. -/
def searchHandleResp {S : Type} (status : Nat) (body : List Char)
    (structuredDecoded : Option S) (jsonResponse : Bool) :
    Except ApiCallError (RawOrStructured S) :=
  if status ≠ 200 then .error (.statusBody status body)
  else parseSearchResponse body structuredDecoded jsonResponse

/-- Client.Search (part_002 lines 112-155), with the network as oracle, as
for readerCall. -/
def searchCall {S : Type} (cfg : Config) (req : SearchRequest)
    (net : SentRequest → Nat × List Char × Option S) :
    List SentRequest × Except ApiCallError (RawOrStructured S) :=
  if req.query = "" then ([], .error (.validation "query is required"))
  else
    let req := if cfg.euCompliance then { req with euCompliance := true } else req
    let sent : SentRequest :=
      { url := buildSearchURL req
        headers := ("Content-Type", "application/json") :: setSearchHeaders cfg req
        body := searchMarshalBody req }
    let r := net sent
    ([sent], searchHandleResp r.1 r.2.1 r.2.2 req.jsonResponse)

/-! ## VLM (part_004) and DeepSearch (deepsearch.go) -/

/-- VLMImageURL of part_004. -/
structure VLMImageURL where
  url : String := ""

/-- VLMContentPart of part_004: type always, text and image_url omitempty. -/
structure VLMContentPart where
  type : String := ""
  text : String := ""
  imageURL : Option VLMImageURL := none

/-- Go default struct marshaling of VLMContentPart. -/
def VLMContentPart.marshalJSON (p : VLMContentPart) : Json :=
  .obj ([("type", Json.str p.type)]
    ++ (if p.text ≠ "" then [("text", Json.str p.text)] else [])
    ++ (match p.imageURL with
        | some u => [("image_url", Json.obj [("url", Json.str u.url)])]
        | none => []))

/-- VLMMessageContent of part_004: plain text or a list of parts. -/
structure VLMMessageContent where
  text : String := ""
  parts : List VLMContentPart := []

/-- VLMMessageContent.MarshalJSON (part_004 lines 36-41): a non-empty parts
list marshals as the array of parts, otherwise the text marshals as a
bare string. -/
def VLMMessageContent.marshalJSON (c : VLMMessageContent) : Json :=
  if c.parts.length > 0 then Json.arr (c.parts.map VLMContentPart.marshalJSON)
  else Json.str c.text

/-- VLMMessage of part_004. -/
structure VLMMessage where
  role : String := ""
  content : VLMMessageContent := {}

/-- Go default struct marshaling of VLMMessage. -/
def VLMMessage.marshalJSON (m : VLMMessage) : Json :=
  .obj [("role", Json.str m.role), ("content", m.content.marshalJSON)]

/-- VLMModelDefault of part_004. -/
def vlmModelDefault : String := "jina-vlm"

/-- VLMRequest of part_004: model, messages, stream (omitempty). -/
structure VLMRequest where
  model : String := ""
  messages : List VLMMessage := []
  stream : Bool := false

/-- Go default struct marshaling of VLMRequest: the stream field carries
the omitempty tag, so a false value is omitted from the body. -/
def vlmRequestMarshal (r : VLMRequest) : Json :=
  .obj ([("model", Json.str r.model),
         ("messages", Json.arr (r.messages.map VLMMessage.marshalJSON))]
    ++ (if r.stream then [("stream", Json.bool r.stream)] else []))

/-- The request mutation Client.VLM performs before marshaling (part_004
lines 110-113): default the model, then force Stream to false. -/
def vlmNormalize (req : VLMRequest) : VLMRequest :=
  let req := if req.model = "" then { req with model := vlmModelDefault } else req
  { req with stream := false }

/-- The request mutation Client.VLMStream performs before marshaling
(part_004 lines 159-162): default the model, then force Stream to true. -/
def vlmStreamNormalize (req : VLMRequest) : VLMRequest :=
  let req := if req.model = "" then { req with model := vlmModelDefault } else req
  { req with stream := true }

/-- DeepSearchModelDefault of deepsearch.go. -/
def deepSearchModelDefault : String := "jina-deepsearch-v1"

/-- DeepSearchResponseFormat of deepsearch.go; the raw JSON schema is kept
as a Json value. -/
structure DeepSearchResponseFormat where
  type : String := ""
  jsonSchema : Json := .null

/-- DeepSearchRequest of deepsearch.go. -/
structure DeepSearchRequest where
  model : String := ""
  messages : List VLMMessage := []
  stream : Bool := false
  reasoningEffort : String := ""
  budgetTokens : Int := 0
  maxAttempts : Int := 0
  noDirectAnswer : Bool := false
  maxReturnedURLs : Int := 0
  responseFormat : Option DeepSearchResponseFormat := none
  boostHostnames : List String := []

/-- Go default struct marshaling of DeepSearchRequest, fields in
declaration order, everything after messages omitempty. -/
def deepSearchRequestMarshal (r : DeepSearchRequest) : Json :=
  .obj ([("model", Json.str r.model),
         ("messages", Json.arr (r.messages.map VLMMessage.marshalJSON))]
    ++ (if r.stream then [("stream", Json.bool r.stream)] else [])
    ++ (if r.reasoningEffort ≠ "" then [("reasoning_effort", Json.str r.reasoningEffort)] else [])
    ++ (if r.budgetTokens ≠ 0 then [("budget_tokens", Json.num r.budgetTokens)] else [])
    ++ (if r.maxAttempts ≠ 0 then [("max_attempts", Json.num r.maxAttempts)] else [])
    ++ (if r.noDirectAnswer then [("no_direct_answer", Json.bool r.noDirectAnswer)] else [])
    ++ (if r.maxReturnedURLs ≠ 0 then [("max_returned_urls", Json.num r.maxReturnedURLs)] else [])
    ++ (match r.responseFormat with
        | some f => [("response_format",
            Json.obj [("type", Json.str f.type), ("json_schema", f.jsonSchema)])]
        | none => [])
    ++ (if r.boostHostnames.length > 0
        then [("boost_hostnames", Json.arr (r.boostHostnames.map Json.str))] else []))

/-- The request mutation Client.DeepSearch performs before marshaling
(deepsearch.go lines 75-78): default the model, then force Stream to
false. -/
def deepSearchNormalize (req : DeepSearchRequest) : DeepSearchRequest :=
  let req := if req.model = "" then { req with model := deepSearchModelDefault } else req
  { req with stream := false }

/-- The request mutation Client.DeepSearchStream performs before marshaling
(deepsearch.go lines 124-127): default the model, then force Stream to
true. -/
def deepSearchStreamNormalize (req : DeepSearchRequest) : DeepSearchRequest :=
  let req := if req.model = "" then { req with model := deepSearchModelDefault } else req
  { req with stream := true }

/-! ## Streaming lemmas -/

theorem dataMarker_pref_append (c : List Char) :
    dataMarker.isPrefixOf (dataMarker ++ c) = true := by
  show List.isPrefixOf ['d', 'a', 't', 'a', ':', ' ']
    (['d', 'a', 't', 'a', ':', ' '] ++ c) = true
  simp [List.isPrefixOf]

theorem trimDataMarker_dataLine (c : List Char) : trimDataMarker (dataLine c) = c := by
  show trimDataMarker (dataMarker ++ c) = c
  simp [trimDataMarker, dataMarker_pref_append, List.drop_left]

theorem scanLoop_skip {E : Type} (cb : List Char → Except E Unit) (junk : List Char)
    (rest : List (List Char)) (h : dataMarker.isPrefixOf junk = false) :
    scanLoop cb (junk :: rest) = scanLoop cb rest := by
  simp [scanLoop, h]

theorem scanLoop_done {E : Type} (cb : List Char → Except E Unit)
    (rest : List (List Char)) :
    scanLoop cb (dataLine doneMark :: rest) = ([], .sawDone) := by
  have hp : dataMarker.isPrefixOf (dataLine doneMark) = true := dataMarker_pref_append _
  simp [scanLoop, hp, trimDataMarker_dataLine]

theorem scanLoop_chunk_ok {E : Type} (cb : List Char → Except E Unit) (c : List Char)
    (rest : List (List Char)) (hne : c ≠ doneMark) (hcb : cb c = .ok ()) :
    scanLoop cb (dataLine c :: rest) =
      (c :: (scanLoop cb rest).1, (scanLoop cb rest).2) := by
  have hp : dataMarker.isPrefixOf (dataLine c) = true := dataMarker_pref_append _
  simp [scanLoop, hp, trimDataMarker_dataLine, hne, hcb]

theorem scanLoop_chunk_error {E : Type} (cb : List Char → Except E Unit) (c : List Char)
    (e : E) (rest : List (List Char)) (hne : c ≠ doneMark) (hcb : cb c = .error e) :
    scanLoop cb (dataLine c :: rest) = ([c], .cbError e) := by
  have hp : dataMarker.isPrefixOf (dataLine c) = true := dataMarker_pref_append _
  simp [scanLoop, hp, trimDataMarker_dataLine, hne, hcb]

theorem scanLoop_chunks {E : Type} (cb : List Char → Except E Unit)
    (cs : List (List Char)) (rest : List (List Char))
    (h : ∀ c ∈ cs, c ≠ doneMark ∧ cb c = .ok ()) :
    scanLoop cb (cs.map dataLine ++ rest) =
      (cs ++ (scanLoop cb rest).1, (scanLoop cb rest).2) := by
  induction cs with
  | nil => simp
  | cons c cs ih =>
    have hc := h c (List.mem_cons_self c cs)
    rw [List.map_cons, List.cons_append, scanLoop_chunk_ok cb c _ hc.1 hc.2,
        ih (fun x hx => h x (List.mem_cons_of_mem c hx))]
    simp

theorem filterMap_length_of_decodes {C : Type} (decode : List Char → Option C)
    (cs : List (List Char)) (h : ∀ c ∈ cs, (decode c).isSome = true) :
    (cs.filterMap decode).length = cs.length := by
  induction cs with
  | nil => rfl
  | cons c cs ih =>
    rcases Option.isSome_iff_exists.mp (h c (List.mem_cons_self c cs)) with ⟨x, hx⟩
    simp [List.filterMap_cons, hx,
      ih (fun y hy => h y (List.mem_cons_of_mem c hy))]

/-- C2: for a stream whose body is a non-data line, two data chunks and the
sentinel (followed by anything), doStream invokes the callback exactly
twice, in order, with the first then the second payload, returns success,
ignores the non-data line, and processes nothing after the sentinel. -/
theorem doStream_two_chunks_then_done {E R : Type} (cb : List Char → Except E Unit)
    (c1 c2 junk : List Char) (rest : List (List Char))
    (scanErr : Option (ScanTermination R))
    (hjunk : dataMarker.isPrefixOf junk = false)
    (h1 : c1 ≠ doneMark) (h2 : c2 ≠ doneMark)
    (hcb1 : cb c1 = .ok ()) (hcb2 : cb c2 = .ok ()) :
    doStream 200 (junk :: dataLine c1 :: dataLine c2 :: dataLine doneMark :: rest)
        scanErr cb = ([c1, c2], .ok) := by
  have hs : scanLoop cb (junk :: dataLine c1 :: dataLine c2 :: dataLine doneMark :: rest)
      = ([c1, c2], .sawDone) := by
    rw [scanLoop_skip cb junk _ hjunk, scanLoop_chunk_ok cb c1 _ h1 hcb1,
        scanLoop_chunk_ok cb c2 _ h2 hcb2, scanLoop_done]
  simp [doStream, hs]

/-- Witness: a concrete stream with an ignored blank line, payloads a and b,
the sentinel, and an unread trailing line. -/
theorem doStream_two_chunks_then_done_witness :
    dataMarker.isPrefixOf [] = false ∧
    doStream 200 ([] :: dataLine ['a'] :: dataLine ['b'] :: dataLine doneMark :: [['x']])
        (none : Option (ScanTermination Unit))
        (fun _ => (.ok () : Except Unit Unit)) = ([['a'], ['b']], .ok) :=
  ⟨by decide,
   doStream_two_chunks_then_done _ _ _ _ _ _ (by decide) (by decide) (by decide) rfl rfl⟩

/-- C6: a stream of N valid chunks that ends without ever delivering the
sentinel (scanner.Err() nil) still returns success, the callback having
been invoked exactly N times with the N payloads in order. -/
theorem doStream_eof_without_sentinel {E R : Type} (cb : List Char → Except E Unit)
    (cs : List (List Char)) (h : ∀ c ∈ cs, c ≠ doneMark ∧ cb c = .ok ()) :
    doStream (R := R) 200 (cs.map dataLine) none cb = (cs, .ok) := by
  have hs := scanLoop_chunks cb cs [] h
  simp [scanLoop] at hs
  simp [doStream, hs]

/-- Witness: three chunks, no sentinel, success with three deliveries. -/
theorem doStream_eof_without_sentinel_witness :
    doStream 200 ([['a'], ['b'], ['c']].map dataLine)
        (none : Option (ScanTermination Unit))
        (fun _ => (.ok () : Except Unit Unit)) = ([['a'], ['b'], ['c']], .ok) :=
  doStream_eof_without_sentinel _ _
    (by intro c hc; fin_cases hc <;> exact ⟨by decide, rfl⟩)

/-- C7: with the per-line closure of VLMStream/DeepSearchStream, after k-1
valid chunks, a k-th data line whose payload fails to decode makes the
call return the decode failure with the user callback having run exactly
k-1 times (none for the malformed line, no later lines processed); and if
the k-th payload decodes but the user callback fails, that failure is
propagated immediately instead. -/
theorem doStream_failure_at_position_k {C E R : Type}
    (decode : List Char → Option C) (ucb : C → Except E Unit)
    (cs : List (List Char)) (bad : List Char) (rest : List (List Char))
    (scanErr : Option (ScanTermination R))
    (hcs : ∀ c ∈ cs, c ≠ doneMark ∧ ∃ x, decode c = some x ∧ ucb x = .ok ())
    (hbad : bad ≠ doneMark) :
    (decode bad = none →
      doStream 200 ((cs ++ [bad]).map dataLine ++ rest) scanErr
          (chunkCallback decode ucb)
        = (cs ++ [bad], .cbFail (.unmarshalChunk bad)) ∧
      ((cs ++ [bad]).filterMap decode).length = cs.length) ∧
    (∀ x e, decode bad = some x → ucb x = .error e →
      doStream 200 ((cs ++ [bad]).map dataLine ++ rest) scanErr
          (chunkCallback decode ucb)
        = (cs ++ [bad], .cbFail (.user e))) := by
  have hok : ∀ c ∈ cs, c ≠ doneMark ∧ chunkCallback decode ucb c = .ok () := by
    intro c hc
    obtain ⟨hne, x, hx, hu⟩ := hcs c hc
    exact ⟨hne, by simp [chunkCallback, hx, hu]⟩
  have hlist : (cs ++ [bad]).map dataLine ++ rest
      = cs.map dataLine ++ (dataLine bad :: rest) := by simp
  constructor
  · intro hdec
    constructor
    · have hcb : chunkCallback decode ucb bad = .error (.unmarshalChunk bad) := by
        simp [chunkCallback, hdec]
      have hs : scanLoop (chunkCallback decode ucb) (cs.map dataLine ++ (dataLine bad :: rest))
          = (cs ++ [bad], .cbError (.unmarshalChunk bad)) := by
        rw [scanLoop_chunks _ cs _ hok, scanLoop_chunk_error _ bad _ _ hbad hcb]
      rw [hlist]
      simp [doStream, hs]
    · have hd : ∀ c ∈ cs, (decode c).isSome = true := by
        intro c hc
        obtain ⟨_, x, hx, _⟩ := hcs c hc
        simp [hx]
      simp [List.filterMap_append, hdec, filterMap_length_of_decodes decode cs hd]
  · intro x e hx he
    have hcb : chunkCallback decode ucb bad = .error (.user e) := by
      simp [chunkCallback, hx, he]
    have hs : scanLoop (chunkCallback decode ucb) (cs.map dataLine ++ (dataLine bad :: rest))
        = (cs ++ [bad], .cbError (.user e)) := by
      rw [scanLoop_chunks _ cs _ hok, scanLoop_chunk_error _ bad _ _ hbad hcb]
    rw [hlist]
    simp [doStream, hs]

/-- Witness: one valid chunk then a failing line, under a decoder that only
accepts the first payload (decode failure case) and a decoder-callback
pair whose callback rejects the second payload (callback failure case). -/
theorem doStream_failure_at_position_k_witness :
    (doStream 200 (([['a']] ++ [['b']]).map dataLine)
        (none : Option (ScanTermination Unit))
        (chunkCallback (fun c => if c = ['a'] then some 1 else none)
          (fun _ : Nat => (.ok () : Except Unit Unit)))
      = ([['a'], ['b']], .cbFail (.unmarshalChunk ['b'])) ∧
      (([['a']] ++ [['b']]).filterMap
          (fun c => if c = ['a'] then some 1 else none)).length = 1) ∧
    doStream 200 (([['a']] ++ [['b']]).map dataLine)
        (none : Option (ScanTermination Unit))
        (chunkCallback (fun c => if c = ['a'] then some 1 else some 2)
          (fun n : Nat => if n = 1 then (.ok () : Except Unit Unit) else .error ()))
      = ([['a'], ['b']], .cbFail (.user ())) := by
  constructor
  · exact (doStream_failure_at_position_k
      (fun c => if c = ['a'] then some 1 else none)
      (fun _ : Nat => (.ok () : Except Unit Unit))
      [['a']] ['b'] [] none
      (by intro c hc; fin_cases hc; exact ⟨by decide, 1, rfl, rfl⟩)
      (by decide)).1 (by decide)
  · exact (doStream_failure_at_position_k
      (fun c => if c = ['a'] then some 1 else some 2)
      (fun n : Nat => if n = 1 then (.ok () : Except Unit Unit) else .error ())
      [['a']] ['b'] [] none
      (by intro c hc; fin_cases hc; exact ⟨by decide, 1, rfl, rfl⟩)
      (by decide)).2 2 () (by decide) rfl

/-! ## Marshal and unmarshal claims -/

/-- C1 counterexample request: convenience query "hello" together with a
present (non-nil) but empty structured query object. -/
def rerankPresentEmptyQueryReq : RerankRequest :=
  { model := "jina-reranker-m0", query := "hello", queryInput := some {} }

/-- C1 counterexample: with the structured query present but empty, the
encoded query field is the empty object, not the convenience string the
claim requires: the query slot judges presence by the pointer being
non-nil (a was-set flag), not by non-emptiness. -/
theorem rerank_query_present_but_empty_cex :
    (RerankRequest.marshalJSON rerankPresentEmptyQueryReq).lookupKey "query"
      = some (Json.obj []) ∧
    some (Json.obj []) ≠ some (Json.str "hello") := by
  constructor
  · rfl
  · simp

/-- C1 (amended): the documents slot of the marshaled rerank request equals
the structured list whenever DocumentsInput is non-empty and the flat
list otherwise (an empty structured list falls back to the convenience
field), while the query slot equals the structured query whenever
QueryInput is non-nil, present-but-empty included, and the convenience
string only when QueryInput is nil. -/
theorem rerank_marshal_slot_precedence (r : RerankRequest) :
    (RerankRequest.marshalJSON r).lookupKey "documents"
      = some (if r.documentsInput.length > 0
          then Json.arr (r.documentsInput.map RerankInput.marshalJSON)
          else Json.arr (r.documents.map Json.str)) ∧
    (RerankRequest.marshalJSON r).lookupKey "query"
      = some (match r.queryInput with
          | some qi => qi.marshalJSON
          | none => Json.str r.query) := by
  rcases hrd : r.returnDocuments with _ | b <;>
    rcases hq : r.queryInput with _ | qi <;>
    by_cases ht : r.topN > 0 <;>
    by_cases hd : r.documentsInput.length > 0 <;>
    simp [RerankRequest.marshalJSON, Json.lookupKey, List.lookup, hrd, hq, ht, hd]

/-- C9: text-only classification inputs encode as the bare JSON string equal
to the text (including the bare empty string for empty text), never as an
object; inputs with a non-empty image encode as the single-key image
object. -/
theorem classification_input_marshal_spec (c : ClassificationInput) :
    (c.image = "" → ClassificationInput.marshalJSON c = Json.str c.text ∧
      ∀ fields, ClassificationInput.marshalJSON c ≠ Json.obj fields) ∧
    (c.image ≠ "" → ClassificationInput.marshalJSON c
      = Json.obj [("image", Json.str c.image)]) := by
  constructor
  · intro h
    constructor
    · simp [ClassificationInput.marshalJSON, h]
    · intro fields
      simp [ClassificationInput.marshalJSON, h]
  · intro h
    simp [ClassificationInput.marshalJSON, h]

/-- Witness: text "hello" encodes as the bare string, the all-empty input
encodes as the bare empty string, and an image input encodes as the
image object. -/
theorem classification_input_marshal_spec_witness :
    ClassificationInput.marshalJSON { text := "hello" } = Json.str "hello" ∧
    ClassificationInput.marshalJSON {} = Json.str "" ∧
    ClassificationInput.marshalJSON { text := "t", image := "http://x" }
      = Json.obj [("image", Json.str "http://x")] :=
  ⟨((classification_input_marshal_spec { text := "hello" }).1 rfl).1,
   ((classification_input_marshal_spec {}).1 rfl).1,
   (classification_input_marshal_spec { text := "t", image := "http://x" }).2
     (by decide)⟩

theorem isOk_map {A B E : Type} (f : A → B) (e : Except E A) :
    (e.map f).isOk = e.isOk := by
  cases e <;> simp [Except.map, Except.isOk, Except.toBool]

theorem decodeIds_not_nums (items : List Json)
    (h : ∀ ns : List Int, items ≠ ns.map Json.num) :
    (decodeIds items).isOk = false := by
  induction items with
  | nil => exact absurd rfl (h [])
  | cons j rest ih =>
    cases j with
    | num n =>
      have hrest : ∀ ns : List Int, rest ≠ ns.map Json.num := by
        intro ns hns
        exact h (n :: ns) (by simp [hns])
      have hih := ih hrest
      cases hd : decodeIds rest with
      | ok l =>
        rw [hd] at hih
        simp [Except.isOk, Except.toBool] at hih
      | error e => simp [decodeIds, hd, Except.map, Except.isOk, Except.toBool]
    | str s => simp [decodeIds, Except.isOk, Except.toBool]
    | bool b => simp [decodeIds, Except.isOk, Except.toBool]
    | null => simp [decodeIds, Except.isOk, Except.toBool]
    | arr l => simp [decodeIds, Except.isOk, Except.toBool]
    | obj fields => simp [decodeIds, Except.isOk, Except.toBool]

/-- C5: decoding the two-element pair round-trips on the example, and fails
on any other arity, on a non-string first element, and on a second
element that is not an array of numbers. -/
theorem token_unmarshal_spec :
    Token.unmarshalJSON (Json.arr [Json.str "hello",
        Json.arr [Json.num 1, Json.num 2, Json.num 3]])
      = .ok ⟨"hello", [1, 2, 3]⟩ ∧
    (∀ elems : List Json, elems.length ≠ 2 →
      (Token.unmarshalJSON (Json.arr elems)).isOk = false) ∧
    (∀ a b : Json, (∀ s, a ≠ Json.str s) →
      (Token.unmarshalJSON (Json.arr [a, b])).isOk = false) ∧
    (∀ s : String, ∀ b : Json, (∀ ns : List Int, b ≠ Json.arr (ns.map Json.num)) →
      (Token.unmarshalJSON (Json.arr [Json.str s, b])).isOk = false) := by
  refine ⟨rfl, ?_, ?_, ?_⟩
  · intro elems h
    rcases elems with _ | ⟨a, _ | ⟨b, _ | ⟨c, t⟩⟩⟩
    · simp [Token.unmarshalJSON, Except.isOk, Except.toBool]
    · simp [Token.unmarshalJSON, Except.isOk, Except.toBool]
    · exact absurd rfl h
    · simp [Token.unmarshalJSON, Except.isOk, Except.toBool]
  · intro a b hna
    cases a with
    | str s => exact absurd rfl (hna s)
    | num n => simp [Token.unmarshalJSON, Except.isOk, Except.toBool]
    | bool c => simp [Token.unmarshalJSON, Except.isOk, Except.toBool]
    | null => simp [Token.unmarshalJSON, Except.isOk, Except.toBool]
    | arr l => simp [Token.unmarshalJSON, Except.isOk, Except.toBool]
    | obj fields => simp [Token.unmarshalJSON, Except.isOk, Except.toBool]
  · intro s b hb
    cases b with
    | arr items =>
      have hitems : ∀ ns : List Int, items ≠ ns.map Json.num := by
        intro ns hns
        exact hb ns (by rw [hns])
      simp [Token.unmarshalJSON, isOk_map, decodeIds_not_nums items hitems]
    | str t => simp [Token.unmarshalJSON, Except.isOk, Except.toBool]
    | num n => simp [Token.unmarshalJSON, Except.isOk, Except.toBool]
    | bool c => simp [Token.unmarshalJSON, Except.isOk, Except.toBool]
    | null => simp [Token.unmarshalJSON, Except.isOk, Except.toBool]
    | obj fields => simp [Token.unmarshalJSON, Except.isOk, Except.toBool]

/-- Witness: wrong arity, a numeric first element, and a boolean second
element each fail to decode. -/
theorem token_unmarshal_spec_witness :
    (Token.unmarshalJSON (Json.arr [Json.str "x"])).isOk = false ∧
    (Token.unmarshalJSON (Json.arr [Json.num 5, Json.null])).isOk = false ∧
    (Token.unmarshalJSON (Json.arr [Json.str "x", Json.bool true])).isOk = false :=
  ⟨token_unmarshal_spec.2.1 [Json.str "x"] (by decide),
   token_unmarshal_spec.2.2.1 (Json.num 5) Json.null (fun s => by simp),
   token_unmarshal_spec.2.2.2 "x" (Json.bool true) (fun ns => by simp)⟩

/-! ## Header, error-path and stream-flag claims -/

/-- C3 counterexample: with the default (empty) API key, Reader and Search
still send an Authorization header (value "Bearer " followed by
nothing), so the claim that no Authorization header is sent when the
key is empty fails for those two calls. -/
theorem reader_auth_sent_with_empty_key_cex :
    defaultConfig.apiKey = "" ∧
    ("Authorization", "Bearer ") ∈ setReaderHeaders defaultConfig {} ∧
    ("Authorization", "Bearer ") ∈ setSearchHeaders defaultConfig {} := by
  refine ⟨rfl, ?_, ?_⟩ <;> decide

/-- C3 (amended): the classification-family endpoints (Classify, Segment,
Rerank, VLM, DeepSearch, and their streaming variants) attach the bearer
Authorization header exactly when the configured key is non-empty, while
Reader and Search always attach it, empty key included; an empty key is
never a local error. -/
theorem auth_header_attachment (cfg : Config) (req : ReaderRequest)
    (sreq : SearchRequest) :
    ((jsonApiHeaders cfg).lookup "Authorization"
      = if cfg.apiKey = "" then none else some ("Bearer " ++ cfg.apiKey)) ∧
    ((streamApiHeaders cfg).lookup "Authorization"
      = if cfg.apiKey = "" then none else some ("Bearer " ++ cfg.apiKey)) ∧
    (setReaderHeaders cfg req).lookup "Authorization"
      = some ("Bearer " ++ cfg.apiKey) ∧
    (setSearchHeaders cfg sreq).lookup "Authorization"
      = some ("Bearer " ++ cfg.apiKey) := by
  refine ⟨?_, ?_, ?_, ?_⟩
  · by_cases h : cfg.apiKey = "" <;>
      simp [jsonApiHeaders, bearerAuth, h, List.lookup]
  · by_cases h : cfg.apiKey = "" <;>
      simp [streamApiHeaders, bearerAuth, h, List.lookup]
  · simp [setReaderHeaders, List.flatten, List.lookup]
  · simp [setSearchHeaders, List.flatten, List.lookup]

/-- C4 counterexample: a non-200 reader response with the non-JSON body
"oops" produces an error embedding the raw body alongside the status
code, not an error embedding only the status code. -/
theorem reader_non200_embeds_body_cex :
    readerHandleResp (S := Unit) 500 "oops".toList none false
      = .error (.statusBody 500 "oops".toList) ∧
    (Except.error (.statusBody 500 "oops".toList)
        : Except ApiCallError (RawOrStructured Unit))
      ≠ .error (.statusCode 500) := by
  constructor
  · rfl
  · simp

/-- C4 (amended): on a non-200 status, the classification-family calls
embed the decoded error-detail map when the external decode succeeded
and only the status code otherwise, while Reader and Search always
embed the status code together with the raw (undecoded) body. -/
theorem non200_error_classification {P S T : Type} (status : Nat)
    (errDecoded : Option (List (String × Json))) (okDecoded : Option P)
    (rbody sbody : List Char) (rdec : Option S) (sdec : Option T)
    (rjson sjson : Bool) (h : status ≠ 200) :
    (∀ m, errDecoded = some m →
      apiHandleResp status errDecoded okDecoded = .error (.detail m)) ∧
    (errDecoded = none →
      apiHandleResp status errDecoded okDecoded = .error (.statusCode status)) ∧
    readerHandleResp status rbody rdec rjson = .error (.statusBody status rbody) ∧
    searchHandleResp status sbody sdec sjson = .error (.statusBody status sbody) := by
  refine ⟨?_, ?_, ?_, ?_⟩
  · intro m hm
    simp [apiHandleResp, h, hm]
  · intro hm
    simp [apiHandleResp, h, hm]
  · simp [readerHandleResp, h]
  · simp [searchHandleResp, h]

/-- Witness: status 404 with the decoded detail map of the claim's example,
status 404 with no decodable body, and the reader and search error
shapes at status 404. -/
theorem non200_error_classification_witness :
    apiHandleResp (P := Unit) 404 (some [("detail", Json.str "bad model")]) none
      = .error (.detail [("detail", Json.str "bad model")]) ∧
    apiHandleResp (P := Unit) 404 none none = .error (.statusCode 404) ∧
    readerHandleResp (S := Unit) 404 "oops".toList none false
      = .error (.statusBody 404 "oops".toList) ∧
    searchHandleResp (S := Unit) 404 "oops".toList none false
      = .error (.statusBody 404 "oops".toList) := by
  refine ⟨?_, ?_, ?_, ?_⟩
  · exact (non200_error_classification (P := Unit) (S := Unit) (T := Unit) 404
      (some [("detail", Json.str "bad model")]) none "oops".toList "oops".toList
      none none false false (by decide)).1 _ rfl
  · exact (non200_error_classification (P := Unit) (S := Unit) (T := Unit) 404
      none none "oops".toList "oops".toList none none false false
      (by decide)).2.1 rfl
  · exact (non200_error_classification (P := Unit) (S := Unit) (T := Unit) 404
      none none "oops".toList "oops".toList none none false false
      (by decide)).2.2.1
  · exact (non200_error_classification (P := Unit) (S := Unit) (T := Unit) 404
      none none "oops".toList "oops".toList none none false false
      (by decide)).2.2.2

/-- C8: an empty URL (Reader) or empty query (Search) fails fast with the
validation error: no request reaches the network oracle and the result
carries no other effect, whatever the network would have answered. -/
theorem validation_fails_fast {S T : Type} (cfg : Config) (req : ReaderRequest)
    (sreq : SearchRequest)
    (netR : SentRequest → Nat × List Char × Option S)
    (netS : SentRequest → Nat × List Char × Option T)
    (hurl : req.url = "") (hq : sreq.query = "") :
    readerCall cfg req netR = ([], .error (.validation "URL is required")) ∧
    searchCall cfg sreq netS = ([], .error (.validation "query is required")) := by
  constructor
  · simp [readerCall, hurl]
  · simp [searchCall, hq]

/-- Witness: the all-default requests (empty URL, empty query) against a
network oracle that would answer 200. -/
theorem validation_fails_fast_witness :
    readerCall (S := Unit) defaultConfig {} (fun _ => (200, [], none))
      = ([], .error (.validation "URL is required")) ∧
    searchCall (S := Unit) defaultConfig {} (fun _ => (200, [], none))
      = ([], .error (.validation "query is required")) :=
  validation_fails_fast defaultConfig {} {} _ _ rfl rfl

theorem lookup_append {B : Type} (k : String) (l1 l2 : List (String × B)) :
    (l1 ++ l2).lookup k
      = match l1.lookup k with
        | some v => some v
        | none => l2.lookup k := by
  induction l1 with
  | nil => simp [List.lookup]
  | cons p t ih =>
    rcases p with ⟨k0, v0⟩
    by_cases h : k == k0 <;> simp [List.lookup, h, ih]

theorem lookup_ite_singleton {B : Type} (c : Prop) [Decidable c]
    (k k0 : String) (v : B) (h : (k == k0) = false) :
    ((if c then [(k0, v)] else []) : List (String × B)).lookup k = none := by
  split <;> simp [List.lookup, h]

theorem lookup_ite_singleton_neg {B : Type} (c : Prop) [Decidable c]
    (k k0 : String) (v : B) (h : (k == k0) = false) :
    ((if c then [] else [(k0, v)]) : List (String × B)).lookup k = none := by
  split <;> simp [List.lookup, h]

theorem vlmMarshal_lookup_stream (r : VLMRequest) :
    (vlmRequestMarshal r).lookupKey "stream"
      = if r.stream then some (Json.bool true) else none := by
  cases hs : r.stream <;>
    simp [vlmRequestMarshal, Json.lookupKey, hs, List.lookup]

theorem dsMarshal_lookup_stream (r : DeepSearchRequest) :
    (deepSearchRequestMarshal r).lookupKey "stream"
      = if r.stream then some (Json.bool true) else none := by
  rcases hrf : r.responseFormat with _ | f <;> cases hs : r.stream <;>
    simp [deepSearchRequestMarshal, Json.lookupKey, hrf, hs, lookup_append,
      lookup_ite_singleton, lookup_ite_singleton_neg, List.lookup]

/-- C10 counterexample: for a caller-supplied request with Stream true, the
synchronous VLM call overwrites Stream to false and the omitempty tag
then drops the field: the marshaled body has no stream field at all, in
particular it does not carry the value false. -/
theorem vlm_sync_stream_omitted_cex :
    (vlmRequestMarshal (vlmNormalize { model := "m", stream := true })).lookupKey
      "stream" = none ∧
    (none : Option Json) ≠ some (Json.bool false) := by
  exact ⟨rfl, by simp⟩

/-- C10 (amended): the synchronous VLM and DeepSearch calls ignore the
caller's Stream value, overwriting it to false, so the marshaled body
omits the stream field entirely (omitempty) and in particular never
carries stream true; the streaming variants overwrite it to true and
the marshaled body always carries stream true. -/
theorem stream_flag_overwrite (vreq : VLMRequest) (dreq : DeepSearchRequest) :
    (vlmNormalize vreq).stream = false ∧
    (vlmRequestMarshal (vlmNormalize vreq)).lookupKey "stream" = none ∧
    (vlmStreamNormalize vreq).stream = true ∧
    (vlmRequestMarshal (vlmStreamNormalize vreq)).lookupKey "stream"
      = some (Json.bool true) ∧
    (deepSearchNormalize dreq).stream = false ∧
    (deepSearchRequestMarshal (deepSearchNormalize dreq)).lookupKey "stream" = none ∧
    (deepSearchStreamNormalize dreq).stream = true ∧
    (deepSearchRequestMarshal (deepSearchStreamNormalize dreq)).lookupKey "stream"
      = some (Json.bool true) := by
  refine ⟨rfl, ?_, rfl, ?_, rfl, ?_, rfl, ?_⟩
  · rw [vlmMarshal_lookup_stream]
    rfl
  · rw [vlmMarshal_lookup_stream]
    rfl
  · rw [dsMarshal_lookup_stream]
    rfl
  · rw [dsMarshal_lookup_stream]
    rfl
